import Mathlib

/-!
Verification of the InboxZen incremental classification pipeline.

This file shallowly embeds the parts of the extension's JavaScript source
that the specification talks about:

* `classifyMessage` / `classifyWithOpenAI` — the live classifier chain in
  `content.js` (lines 529–611);
* `LocalClassifier.classify` — the superseded scoring classifier module
  (embedded as `localClassify`);
* the storage layer of `lib/storage.js` (`updateCacheEntry`,
  `deleteCacheEntry`, `clearCache`, `validateCache`);
* the background message listener of `background.js` (`handleMessage`);
* the change-detection and polling logic of
  `waitForSnippetUpdateAndClassify` in `content.js`;
* the per-item decision logic of `processMessages` in `content.js`.

Asynchronous chrome APIs are modelled as explicit state passing: the
persistent `chrome.storage.local` object becomes a `StorageState` record,
wall-clock `Date.now()` becomes an explicit `now : ℕ` argument, and the
remote OpenAI call becomes an explicit `RemoteOutcome` describing what the
network returned.  JavaScript category strings are kept as `String`s, as in
the duck-typed source.
-/

namespace InboxZen

/-! ## String helpers mirroring JavaScript primitives -/

/-- JavaScript `String.prototype.toLowerCase`, restricted to the ASCII
lowering that `Char.toLower` performs (all keywords in the source are
ASCII). -/
def jsToLower (s : String) : String :=
  ⟨s.data.map Char.toLower⟩

/-- Does `sub` occur at the head of `hay`?  (Helper for `containsSub`.) -/
def leadsWith : List Char → List Char → Bool
  | [], _ => true
  | _ :: _, [] => false
  | a :: as, b :: bs => a == b && leadsWith as bs

/-- Does `sub` occur contiguously anywhere in `hay`?  (Helper for
`strIncludes`.) -/
def containsSub (sub : List Char) : List Char → Bool
  | [] => leadsWith sub []
  | b :: bs => leadsWith sub (b :: bs) || containsSub sub bs

/-- JavaScript `hay.includes(sub)` on strings: substring containment. -/
def strIncludes (hay sub : String) : Bool :=
  containsSub sub.data hay.data

/-- JavaScript truthiness of an optional string-valued property: `undefined`
and the empty string are falsy. -/
def jsTruthy (s : Option String) : Bool :=
  match s with
  | none => false
  | some str => str ≠ ""

/-! ## The live classifier chain (`content.js` lines 529–611) -/

/-- The five known categories, as validated by `classifyWithOpenAI`
(`content.js` line 601). -/
def validCategories : List String :=
  ["Job Offers", "Networking", "Sales", "Spam", "Other"]

/-- Keywords tested by the first `if` of `classifyMessage`
(`content.js` lines 534–536). -/
def jobKeywords : List String :=
  ["job", "position", "opportunity", "hiring", "recruiter", "career"]

/-- Keywords tested by the second `if` of `classifyMessage`
(`content.js` lines 540–541). -/
def networkingKeywords : List String :=
  ["connect", "network", "introduction", "meet"]

/-- Keywords tested by the third `if` of `classifyMessage`
(`content.js` lines 545–548). -/
def salesKeywords : List String :=
  ["buy", "demo", "product", "service", "offer", "sale", "discount"]

/-- Keywords tested by the fourth `if` of `classifyMessage`
(`content.js` lines 552–554). -/
def spamKeywords : List String :=
  ["congratulation", "lottery", "winner", "gift", "free"]

/-- What the remote OpenAI call observably produced: a thrown/network
error, a response without `choices[0].message`, or the trimmed content
string of the answer. -/
inductive RemoteOutcome
  | fetchError
  | malformed
  | answer (content : String)

/-- `classifyWithOpenAI` (`content.js` lines 572–611): any failure or an
answer outside the known category set yields "Other". -/
def classifyWithOpenAI (outcome : RemoteOutcome) : String :=
  match outcome with
  | .answer content => if validCategories.contains content then content else "Other"
  | .fetchError => "Other"
  | .malformed => "Other"

/-- The module-level `settings` object fields consulted by
`classifyMessage` (`content.js` line 559). -/
structure SettingsJs where
  useAI : Bool
  apiKey : String

/-- The `fullText` variable of `classifyMessage` (`content.js` line 531):
the template literal `` `${sender} ${subject} ${text}` `` lowercased. -/
def fullTextOf (text sender subject : String) : String :=
  jsToLower (sender ++ " " ++ subject ++ " " ++ text)

/-- `classifyMessage` (`content.js` lines 529–568).  The remote call is
passed in as the `RemoteOutcome` it would observe. -/
def classifyMessage (settings : SettingsJs) (remote : RemoteOutcome)
    (text sender subject : String) : String :=
  if jobKeywords.any (fun k => strIncludes (fullTextOf text sender subject) k) then
    "Job Offers"
  else if networkingKeywords.any (fun k => strIncludes (fullTextOf text sender subject) k) then
    "Networking"
  else if salesKeywords.any (fun k => strIncludes (fullTextOf text sender subject) k) then
    "Sales"
  else if spamKeywords.any (fun k => strIncludes (fullTextOf text sender subject) k) then
    "Spam"
  else if settings.useAI && settings.apiKey ≠ "" then classifyWithOpenAI remote
  else "Other"

/-! ## The superseded scoring classifier (`LocalClassifier.classify`) -/

/-- The keyword table of the `LocalClassifier` constructor (note the
duplicated "introduction" entry in Networking, kept as in the source). -/
def localClassifierKeywords : List (String × List String) :=
  [("Job Offers",
    ["job", "position", "opportunity", "hiring", "recruiter",
     "career", "employment", "role", "opening", "vacancy",
     "interview", "application", "applicant", "resume", "cv"]),
   ("Networking",
    ["connect", "network", "introduction", "meet", "coffee",
     "chat", "catch up", "introduction", "referred", "mutual",
     "know each other", "connection", "group", "community"]),
   ("Sales",
    ["buy", "demo", "product", "service", "offer", "sale",
     "discount", "price", "quote", "solution", "implement",
     "purchase", "invest", "roi", "cost", "subscription"]),
   ("Spam",
    ["congratulation", "lottery", "winner", "gift", "free",
     "urgent", "limited time", "exclusive offer", "guaranteed",
     "millions", "investment opportunity", "quick money"])]

/-- The per-category scores computed by `LocalClassifier.classify`:
`+1` per keyword-list entry found in the lowercased text. -/
def localScores (text : String) : List (String × ℕ) :=
  localClassifierKeywords.map
    (fun p => (p.1, (p.2.filter (fun k => strIncludes (jsToLower text) k)).length))

/-- The `bestCategory`/`maxScore` accumulation loop of
`LocalClassifier.classify`: starting from `("Other", 0)`, replace the
accumulator whenever a strictly higher score is seen (first declared
category wins ties). -/
def localBest (text : String) : String × ℕ :=
  (localScores text).foldl (fun acc p => if p.2 > acc.2 then p else acc) ("Other", 0)

/-- `LocalClassifier.classify`: the accumulation loop followed by the
`if (maxScore < 2) return 'Other'` threshold test. -/
def localClassify (text : String) : String :=
  if (localBest text).2 < 2 then "Other" else (localBest text).1

/-- The highest local score for a text, as a plain maximum. -/
def localMaxScore (text : String) : ℕ :=
  (localScores text).foldl (fun m p => max m p.2) 0

/-! ## The storage layer (`lib/storage.js`) -/

/-- The persisted `cachedClassifications` object: itemId → category. -/
abbrev Cache := String → Option String

/-- `Storage.updateCacheEntry` (`storage.js` lines 87–96): read the cache
object, set `cache[conversationId] = category`, write it back. -/
def updateCacheEntry (cache : Cache) (conversationId category : String) : Cache :=
  fun id => if id = conversationId then some category else cache id

/-- `Storage.deleteCacheEntry` (`storage.js` lines 103–116): delete the key
when present (`hasOwnProperty` guard), otherwise leave the cache alone. -/
def deleteCacheEntry (cache : Cache) (conversationId : String) : Cache :=
  if (cache conversationId).isSome then
    fun id => if id = conversationId then none else cache id
  else cache

/-- `DEFAULT_CACHE_EXPIRY_DURATION` (`storage.js` line 3): 7 days in
milliseconds. -/
def defaultCacheExpiryDuration : ℕ := 7 * 24 * 60 * 60 * 1000

/-- `CURRENT_CACHE_VERSION` (`storage.js` line 4): the floating-point
literal `1.3`, modelled as the rational 13/10. -/
def currentCacheVersion : ℚ := mkRat 13 10

/-- The `chrome.storage.local` contents, per the persisted schema. -/
structure StorageState where
  categories : List String
  apiKey : String
  useAI : Bool
  cachedClassifications : Cache
  cacheVersion : Option ℚ
  cacheExpiry : Option ℕ

/-- JavaScript `v || d` defaulting on an optional number: `undefined` and
`0` are falsy. -/
def jsOrNat (v : Option ℕ) (d : ℕ) : ℕ :=
  match v with
  | none => d
  | some n => if n = 0 then d else n

/-- JavaScript `v || d` defaulting on an optional numeric version. -/
def jsOrQ (v : Option ℚ) (d : ℚ) : ℚ :=
  match v with
  | none => d
  | some q => if q = 0 then d else q

/-- `Storage.clearCache` (`storage.js` lines 123–134): empty the
classification records and reset the expiry to `Date.now()` plus the 7-day
duration. -/
def clearCache (now : ℕ) (st : StorageState) : StorageState :=
  { st with
    cachedClassifications := fun _ => none
    cacheExpiry := some (now + defaultCacheExpiryDuration) }

/-- `Storage.validateCache` (`storage.js` lines 160–182): read
`cacheVersion` (defaulting to 1.0) and `cacheExpiry` (defaulting to 0); if
expired or version-stale, clear the cache, restore the expected version and
return `false`; otherwise return `true` leaving storage untouched. -/
def validateCache (now : ℕ) (st : StorageState) : StorageState × Bool :=
  if now > jsOrNat st.cacheExpiry 0 ∨ jsOrQ st.cacheVersion 1 < currentCacheVersion then
    ({ clearCache now st with cacheVersion := some currentCacheVersion }, false)
  else (st, true)

/-! ## The background message listener (`background.js` lines 17–57) -/

/-- A `chrome.runtime.sendMessage` payload: the `action` string plus the
optional fields the listener reads. -/
structure JsMessage where
  action : String
  conversationId : Option String
  category : Option String
  cache : Option Cache

/-- What `sendResponse` is called with, when it is called at all. -/
inductive JsResponse
  | settingsResp (settings : StorageState)
  | success

/-- The `chrome.runtime.onMessage` listener of `background.js`: dispatch on
`request.action`; any action other than the four known ones falls through
to the unknown-action branch, which only logs — storage is untouched and
no response is sent. -/
def handleMessage (st : StorageState) (now : ℕ) (request : JsMessage) :
    StorageState × Option JsResponse :=
  if request.action = "getSettings" then
    (st, some (JsResponse.settingsResp st))
  else if request.action = "updateCacheEntry" then
    ({ st with cachedClassifications :=
        (updateCacheEntry st.cachedClassifications
          (request.conversationId.getD "") (request.category.getD "")) },
     some JsResponse.success)
  else if request.action = "deleteCacheEntry" then
    ({ st with cachedClassifications :=
        (deleteCacheEntry st.cachedClassifications (request.conversationId.getD "")) },
     some JsResponse.success)
  else if request.action = "clearCache" then
    (clearCache now st, some JsResponse.success)
  else (st, none)

/-- The message built by `updateCache` in `content.js` (lines 660–667):
`{action: 'updateCache', cache: cachedClassifications}`. -/
def updateCacheRequest (cachedClassifications : Cache) : JsMessage :=
  ⟨"updateCache", none, none, some cachedClassifications⟩

/-! ## Change detection (`waitForSnippetUpdateAndClassify`, lines 197–234) -/

/-- The change-detection predicate of `content.js` lines 205–214:
`previousSnippet` is the stored fingerprint defaulted to the empty string,
and classification proceeds when `hasChanged || isNewNonEmpty`. -/
def hasMeaningfulChange (fingerprint : Option String) (currentSnippet : String) : Bool :=
  let previousSnippet := fingerprint.getD ""
  (currentSnippet != previousSnippet && currentSnippet != "") ||
    (previousSnippet == "" && currentSnippet != "")

/-- `MAX_SNIPPET_CHECK_RETRIES` (`content.js` line 194). -/
def maxSnippetCheckRetries : ℕ := 10

/-- One run of the polling recursion of `waitForSnippetUpdateAndClassify`,
counting poll attempts until dispatch.  `snip k` is the snippet text the
k-th poll observes, `prev` the stored fingerprint (unchanged while no
dispatch happens), `n` the current `retryCount`, and the extra argument is
`maxSnippetCheckRetries - n`, the number of retries still allowed — the
structural measure behind the source's `retryCount < MAX_SNIPPET_CHECK_RETRIES`
test.  On a meaningful change, or once retries are exhausted, the function
dispatches (1 final attempt); otherwise it polls again at `n + 1`. -/
def pollRun (snip : ℕ → String) (prev : String) : ℕ → ℕ → ℕ
  | _, 0 => 1
  | n, rem + 1 =>
    if hasMeaningfulChange (some prev) (snip n) then 1
    else 1 + pollRun snip prev (n + 1) rem

/-- Total poll attempts of `waitForSnippetUpdateAndClassify(convId, 0)`:
the recursion starts at `retryCount = 0` with the full retry budget. -/
def pollAttempts (snip : ℕ → String) (prev : String) : ℕ :=
  pollRun snip prev 0 maxSnippetCheckRetries

/-! ## Per-item decision logic of `processMessages` (lines 410–508) -/

/-- What `processMessages` decides to do with one conversation card. -/
inductive ItemAction
  | classifyItem
  | useCached (category : String)
  | skip
deriving DecidableEq

/-- The per-item branch structure of `processMessages` (lines 433–466):
on the initial load classify unread items and skip read ones (removing any
existing tag); on subsequent loads classify unread items unconditionally,
and label read items from the cache when a truthy entry exists. -/
def processDecision (isInitialLoad isUnread : Bool) (cached : Option String) :
    ItemAction :=
  if isInitialLoad then
    if isUnread then ItemAction.classifyItem else ItemAction.skip
  else if isUnread then ItemAction.classifyItem
  else if jsTruthy cached then ItemAction.useCached (cached.getD "")
  else ItemAction.skip

/-- The cache mutation of the `shouldClassify` branch (lines 481–491):
delete any truthy cached entry for the item, classify, then store the fresh
category. -/
def classifyBranchCache (cache : Cache) (messageId category : String) : Cache :=
  let cache1 :=
    if jsTruthy (cache messageId) then
      fun id => if id = messageId then none else cache id
    else cache
  fun id => if id = messageId then some category else cache1 id

/-! ## The fingerprint map `processedSnippets` and its writers -/

/-- The in-memory `processedSnippets` map of `content.js`. -/
abbrev SnippetMap := String → Option String

/-- `processedSnippets.set(convId, s)`. -/
def setSnippet (m : SnippetMap) (convId s : String) : SnippetMap :=
  fun id => if id = convId then some s else m id

/-- Every site in `content.js` that writes `processedSnippets`. -/
inductive SnippetOp
  | pollChange (convId cur : String)
  | pollFallback (convId cur : String)
  | scanStore (convId text : String)
  | observerDirect (convId cur : String)
  | observerAdded (convId cur : String)
  | readRemoval (convId : String)

/-- The effect of each `processedSnippets` write site:
`pollChange` is lines 211–218 (guarded by the change predicate),
`pollFallback` is lines 226–232 (guarded by `currentSnippet !== ''`),
`scanStore` is lines 475–478 (guarded by `if (messageText)`),
`observerDirect` is lines 261–270 (changed and non-empty),
`observerAdded` is lines 298–309 (non-empty and changed), and
`readRemoval` is the deletion in `handleMessageRead` (lines 841–843). -/
def applySnippetOp (m : SnippetMap) : SnippetOp → SnippetMap
  | .pollChange convId cur =>
    if hasMeaningfulChange (m convId) cur then setSnippet m convId cur else m
  | .pollFallback convId cur =>
    if cur ≠ "" then setSnippet m convId cur else m
  | .scanStore convId text =>
    if text ≠ "" then setSnippet m convId text else m
  | .observerDirect convId cur =>
    if cur ≠ (m convId).getD "" ∧ cur ≠ "" then setSnippet m convId cur else m
  | .observerAdded convId cur =>
    if cur ≠ "" then
      (if cur ≠ (m convId).getD "" then setSnippet m convId cur else m)
    else m
  | .readRemoval convId =>
    if (m convId).isSome then (fun id => if id = convId then none else m id) else m

/-- The invariant of claim C10: no itemId is fingerprinted with the empty
string. -/
def noEmptySnippet (m : SnippetMap) : Prop :=
  ∀ id, m id ≠ some ""

/-! ## The sequence-of-operations view of the persistent cache (C9) -/

/-- The mutations `lib/storage.js` can apply to `cachedClassifications`. -/
inductive StoreOp
  | setEntry (conversationId category : String)
  | removeEntry (conversationId : String)
  | clearAll

/-- Apply one storage mutation. -/
def applyStoreOp (cache : Cache) : StoreOp → Cache
  | .setEntry convId cat => updateCacheEntry cache convId cat
  | .removeEntry convId => deleteCacheEntry cache convId
  | .clearAll => fun _ => none

/-- Does an operation touch the given itemId?  `clearAll` touches every
id. -/
def opTouches (id : String) : StoreOp → Bool
  | .setEntry convId _ => convId == id
  | .removeEntry convId => convId == id
  | .clearAll => true

/-- No operation in the list touches `id`. -/
def noneTouch (id : String) (ops : List StoreOp) : Bool :=
  ops.all (fun op => !(opTouches id op))

/-- A storage state whose cache has expired (stored expiry 0). -/
def sampleStale : StorageState :=
  ⟨["Job Offers", "Networking", "Sales", "Spam", "Other"], "", false, fun _ => none,
   some 1, some 0⟩

/-- A storage state with an up-to-date version and a far-future expiry. -/
def sampleFresh : StorageState :=
  ⟨["Job Offers", "Networking", "Sales", "Spam", "Other"], "", false, fun _ => none,
   some 2, some 100⟩

/-! ## Helper lemmas -/

/-- Every outcome of the remote classifier is one of the five known
categories. -/
theorem classifyWithOpenAI_mem (r : RemoteOutcome) :
    classifyWithOpenAI r ∈ validCategories := by
  cases r with
  | answer content =>
    show (if validCategories.contains content = true then content else "Other") ∈ validCategories
    by_cases h : validCategories.contains content = true
    · rw [if_pos h]
      exact List.mem_of_elem_eq_true h
    · rw [if_neg h]
      decide
  | fetchError => decide
  | malformed => decide

/-- The running best of the `LocalClassifier` loop keeps its score below
any bound satisfied by the initial accumulator and all entries. -/
theorem foldl_pick_snd_lt (l : List (String × ℕ)) (m : ℕ) :
    ∀ init : String × ℕ, init.2 < m → (∀ p ∈ l, p.2 < m) →
      (l.foldl (fun acc p => if p.2 > acc.2 then p else acc) init).2 < m := by
  induction l with
  | nil => intro init h0 _; exact h0
  | cons a l ih =>
    intro init h0 h
    simp only [List.foldl_cons]
    apply ih
    · by_cases hc : a.2 > init.2
      · rw [if_pos hc]; exact h a (List.mem_cons_self a l)
      · rw [if_neg hc]; exact h0
    · intro p hp; exact h p (List.mem_cons_of_mem a hp)

/-- The running-max fold only grows from its initial value. -/
theorem init_le_foldl_max (l : List (String × ℕ)) (b : ℕ) :
    b ≤ l.foldl (fun acc q => max acc q.2) b := by
  induction l generalizing b with
  | nil => exact le_refl b
  | cons a l ih => exact le_trans (le_max_left b a.2) (ih (max b a.2))

/-- Every list entry's score is bounded by the running-max fold. -/
theorem mem_le_foldl_max (p : String × ℕ) :
    ∀ (l : List (String × ℕ)), p ∈ l →
      ∀ b : ℕ, p.2 ≤ l.foldl (fun acc q => max acc q.2) b := by
  intro l
  induction l with
  | nil => intro hp; cases hp
  | cons a l ih =>
    intro hp b
    simp only [List.foldl_cons]
    rcases List.mem_cons.mp hp with h | h
    · exact le_trans (by rw [h]; exact le_max_right b a.2) (init_le_foldl_max l (max b a.2))
    · exact ih h (max b a.2)

/-- A change that passes the change-detection predicate is never empty. -/
theorem hasMeaningfulChange_ne_empty (fingerprint : Option String)
    (currentSnippet : String)
    (h : hasMeaningfulChange fingerprint currentSnippet = true) :
    currentSnippet ≠ "" := by
  intro he
  subst he
  simp [hasMeaningfulChange] at h

/-- With an always-unchanged snippet stream, every poll consumes one
attempt and one unit of the retry budget. -/
theorem pollRun_unchanged (snip : ℕ → String) (prev : String)
    (h : ∀ k, hasMeaningfulChange (some prev) (snip k) = false) :
    ∀ (rem n : ℕ), pollRun snip prev n rem = rem + 1 := by
  intro rem
  induction rem with
  | zero => intro n; rfl
  | succ r ih =>
    intro n
    unfold pollRun
    rw [if_neg (by simp [h n]), ih (n + 1)]
    omega

/-- The polling loop always dispatches within `rem + 1` attempts. -/
theorem pollRun_le (snip : ℕ → String) (prev : String) :
    ∀ (rem n : ℕ), pollRun snip prev n rem ≤ rem + 1 := by
  intro rem
  induction rem with
  | zero => intro n; exact le_refl 1
  | succ r ih =>
    intro n
    unfold pollRun
    split
    · omega
    · have := ih (n + 1); omega

/-- A storage operation that does not touch `id` leaves the value at `id`
unchanged. -/
theorem applyStoreOp_untouched (cache : Cache) (op : StoreOp) (id : String)
    (h : opTouches id op = false) : applyStoreOp cache op id = cache id := by
  cases op with
  | setEntry convId cat =>
    simp only [opTouches, beq_eq_false_iff_ne, ne_eq] at h
    have hne : ¬ id = convId := fun e => h e.symm
    simp [applyStoreOp, updateCacheEntry, hne]
  | removeEntry convId =>
    simp only [opTouches, beq_eq_false_iff_ne, ne_eq] at h
    have hne : ¬ id = convId := fun e => h e.symm
    by_cases hs : (cache convId).isSome
    · simp [applyStoreOp, deleteCacheEntry, hs, hne]
    · simp [applyStoreOp, deleteCacheEntry, hs]
  | clearAll => exact absurd h (by simp [opTouches])

/-- A value survives any sequence of storage operations that never touch
its key. -/
theorem foldl_storeOps_preserve (id c : String) :
    ∀ (ops : List StoreOp) (cache : Cache), cache id = some c →
      noneTouch id ops = true → (ops.foldl applyStoreOp cache) id = some c := by
  intro ops
  induction ops with
  | nil => intro cache h _; exact h
  | cons op ops ih =>
    intro cache h hn
    simp only [noneTouch, List.all_cons, Bool.and_eq_true, Bool.not_eq_true'] at hn
    simp only [List.foldl_cons]
    apply ih
    · rw [applyStoreOp_untouched cache op id hn.1]; exact h
    · simp only [noneTouch]; exact hn.2

/-- `setSnippet` with a non-empty text preserves the no-empty-fingerprint
invariant. -/
theorem setSnippet_preserves (m : SnippetMap) (convId s : String) (hs : s ≠ "")
    (h : noEmptySnippet m) : noEmptySnippet (setSnippet m convId s) := by
  intro id
  unfold setSnippet
  split
  · intro he; exact hs (Option.some.inj he)
  · exact h id

/-! ## Claim theorems -/

/-- C1: the claim says a successful classification's `(itemId, category)`
record reaches the persistent store because the content script's
`updateCache` request is accepted and applied by the background handler.
The code disagrees: the background listener matches only the actions
`getSettings`, `updateCacheEntry`, `deleteCacheEntry` and `clearCache`, so
the `{action: 'updateCache', cache}` message built by `content.js` falls
into the unknown-action branch — storage is left exactly as it was and no
response is sent, hence a later session's `getSettings` does not return
the written category. -/
theorem updateCache_request_not_persisted :
    ∀ (st : StorageState) (now : ℕ) (localCache : Cache),
      handleMessage st now (updateCacheRequest localCache) = (st, none) ∧
      (∀ convId,
        (handleMessage st now (updateCacheRequest localCache)).1.cachedClassifications convId
          = st.cachedClassifications convId) := by
  intro st now localCache
  exact ⟨rfl, fun convId => rfl⟩

/-- C2 counterexample: the live classifier of `content.js` returns
"Job Offers" for the input `text = "job"` (empty sender and subject, remote
classifier unconfigured), although exactly one job keyword matches and
every other category scores zero — a local match of count 1 IS returned as
the result, instead of falling through to "Other". -/
theorem classifyMessage_single_keyword_returned :
    (jobKeywords.filter (fun k => strIncludes (fullTextOf "job" "" "") k)).length = 1 ∧
    (networkingKeywords.filter (fun k => strIncludes (fullTextOf "job" "" "") k)).length = 0 ∧
    (salesKeywords.filter (fun k => strIncludes (fullTextOf "job" "" "") k)).length = 0 ∧
    (spamKeywords.filter (fun k => strIncludes (fullTextOf "job" "" "") k)).length = 0 ∧
    classifyMessage ⟨false, ""⟩ RemoteOutcome.fetchError "job" "" "" = "Job Offers" ∧
    classifyMessage ⟨false, ""⟩ RemoteOutcome.fetchError "job" "" "" ≠ "Other" := by
  decide

/-- C2 (amended): the threshold-2 rule holds only in the superseded
`LocalClassifier` module, not in the live `classifyMessage`: whenever the
highest `LocalClassifier` score is below the minimum threshold of 2 (in
particular when exactly one keyword of some category matches),
`LocalClassifier.classify` returns "Other" and never returns the weak
category. -/
theorem localClassify_below_threshold_other :
    ∀ text, localMaxScore text < 2 → localClassify text = "Other" := by
  intro text h
  have hall : ∀ p ∈ localScores text, p.2 < 2 := fun p hp =>
    lt_of_le_of_lt (mem_le_foldl_max p (localScores text) hp 0) h
  have hb : (localBest text).2 < 2 :=
    foldl_pick_snd_lt (localScores text) 2 ("Other", 0) (by omega) hall
  unfold localClassify
  rw [if_pos hb]

/-- C2 witness: the single-job-keyword text scores below the threshold and
the superseded classifier indeed answers "Other" on it. -/
theorem localClassify_below_threshold_other_witness :
    localClassify "job" = "Other" :=
  localClassify_below_threshold_other "job" (by decide)

/-- C3: for every input and every observable remote outcome,
`classifyMessage` returns one of the five known categories (it is a total
function, so it never throws), and every remote-classifier failure —
network error, malformed response, or an answer outside the known category
set — is absorbed into "Other". -/
theorem classifyMessage_total_and_absorbs_failures :
    (∀ (settings : SettingsJs) (remote : RemoteOutcome) (text sender subject : String),
      classifyMessage settings remote text sender subject ∈ validCategories) ∧
    classifyWithOpenAI RemoteOutcome.fetchError = "Other" ∧
    classifyWithOpenAI RemoteOutcome.malformed = "Other" ∧
    (∀ content, content ∉ validCategories →
      classifyWithOpenAI (RemoteOutcome.answer content) = "Other") := by
  refine ⟨?_, rfl, rfl, ?_⟩
  · intro settings remote text sender subject
    unfold classifyMessage
    repeat' split
    all_goals first
      | exact classifyWithOpenAI_mem remote
      | decide
  · intro content h
    show (if validCategories.contains content = true then content else "Other") = "Other"
    rw [if_neg (fun hc => h (List.mem_of_elem_eq_true hc))]

/-- C3 witness: a remote answer outside the known category set is mapped
to "Other". -/
theorem classifyMessage_total_and_absorbs_failures_witness :
    classifyWithOpenAI (RemoteOutcome.answer "Banana") = "Other" :=
  classifyMessage_total_and_absorbs_failures.2.2.2 "Banana" (by decide)

/-- C4: when the stored epoch is invalid (`now` past the stored expiry, or
the stored version below the expected version, both read with the source's
falsy-defaulting), `validateCache` returns `false`, clears every
classification record, resets the expiry to `now` plus the 7-day TTL and
restores the expected version; when the epoch is valid it returns `true`
and the whole stored state is unchanged. -/
theorem validateCache_epoch_invalidation :
    ∀ (now : ℕ) (st : StorageState),
      ((now > jsOrNat st.cacheExpiry 0 ∨ jsOrQ st.cacheVersion 1 < currentCacheVersion) →
        (validateCache now st).2 = false ∧
        (∀ id, (validateCache now st).1.cachedClassifications id = none) ∧
        (validateCache now st).1.cacheExpiry = some (now + defaultCacheExpiryDuration) ∧
        (validateCache now st).1.cacheVersion = some currentCacheVersion) ∧
      (¬(now > jsOrNat st.cacheExpiry 0 ∨ jsOrQ st.cacheVersion 1 < currentCacheVersion) →
        validateCache now st = (st, true)) := by
  intro now st
  constructor
  · intro h
    unfold validateCache
    rw [if_pos h]
    exact ⟨rfl, fun id => rfl, rfl, rfl⟩
  · intro h
    unfold validateCache
    rw [if_neg h]

/-- C4 witness: a state with stored expiry 0 is invalidated at time 5, and
a state with version 2 and expiry 100 validates successfully at time 3. -/
theorem validateCache_epoch_invalidation_witness :
    (validateCache 5 sampleStale).2 = false ∧
    validateCache 3 sampleFresh = (sampleFresh, true) :=
  ⟨((validateCache_epoch_invalidation 5 sampleStale).1 (Or.inl (by decide))).1,
   (validateCache_epoch_invalidation 3 sampleFresh).2 (by decide)⟩

/-- C5: the change-detection predicate holds exactly when the current text
differs from the stored fingerprint (defaulted to the empty string) and the
current text is non-empty; it is always false for empty current text, true
the first time a non-empty text is seen for an item with no fingerprint,
and false when the same text is presented again right after its fingerprint
was committed. -/
theorem hasMeaningfulChange_spec :
    ∀ (fingerprint : Option String) (currentSnippet : String),
      (hasMeaningfulChange fingerprint currentSnippet = true ↔
        (currentSnippet ≠ fingerprint.getD "" ∧ currentSnippet ≠ "")) ∧
      hasMeaningfulChange fingerprint "" = false ∧
      (currentSnippet ≠ "" → hasMeaningfulChange none currentSnippet = true) ∧
      hasMeaningfulChange (some currentSnippet) currentSnippet = false := by
  intro fp cur
  refine ⟨?_, ?_, ?_, ?_⟩
  · simp only [hasMeaningfulChange, Bool.or_eq_true, Bool.and_eq_true, bne_iff_ne,
      beq_iff_eq, ne_eq]
    constructor
    · rintro (⟨h1, h2⟩ | ⟨h1, h2⟩)
      · exact ⟨h1, h2⟩
      · exact ⟨by rw [h1]; exact h2, h2⟩
    · rintro ⟨h1, h2⟩
      exact Or.inl ⟨h1, h2⟩
  · simp [hasMeaningfulChange]
  · intro h
    simp [hasMeaningfulChange, h]
  · simp [hasMeaningfulChange]

/-- C5 witness: an item with no fingerprint and non-empty text "hello" is
a meaningful change. -/
theorem hasMeaningfulChange_spec_witness :
    hasMeaningfulChange none "hello" = true :=
  (hasMeaningfulChange_spec none "hello").2.2.1 (by decide)

/-- C6: when no poll ever observes a meaningful change (and the item stays
present, which is what the embedded recursion models), the scheduler
dispatches after exactly `MAX_SNIPPET_CHECK_RETRIES + 1 = 11` poll attempts
(retry counts 0 through 10); in every run it dispatches within 11 attempts,
so the polling never loops indefinitely. -/
theorem poll_scheduler_terminates :
    (∀ (snip : ℕ → String) (prev : String),
      (∀ k, hasMeaningfulChange (some prev) (snip k) = false) →
        pollAttempts snip prev = maxSnippetCheckRetries + 1) ∧
    (∀ (snip : ℕ → String) (prev : String),
      pollAttempts snip prev ≤ maxSnippetCheckRetries + 1) ∧
    maxSnippetCheckRetries + 1 = 11 := by
  refine ⟨?_, ?_, rfl⟩
  · intro snip prev h
    exact pollRun_unchanged snip prev h maxSnippetCheckRetries 0
  · intro snip prev
    exact pollRun_le snip prev maxSnippetCheckRetries 0

/-- C6 witness: a stream that always shows the empty snippet (never a
meaningful change) is dispatched after exactly 11 poll attempts. -/
theorem poll_scheduler_terminates_witness :
    pollAttempts (fun _ => "") "" = 11 :=
  poll_scheduler_terminates.1 (fun _ => "") "" (fun _ => rfl)

/-- C7 counterexample: on the initial scan, a read item with cached
category "Sales" is skipped (no label applied) rather than being shown
with its cached label, contradicting the claim. -/
theorem processDecision_initial_read_cached_no_label :
    processDecision true false (some "Sales") = ItemAction.skip ∧
    processDecision true false (some "Sales") ≠ ItemAction.useCached "Sales" := by
  decide

/-- C7 (amended): the initial scan classifies only unread items; every
read item — cached or not — is skipped with no label (any existing tag is
removed), its cache entry being left in place; cached labels for read
items are applied only on subsequent scans. -/
theorem processDecision_initial_scan_unread_only :
    ∀ (isUnread : Bool) (cached : Option String),
      processDecision true isUnread cached =
        (if isUnread then ItemAction.classifyItem else ItemAction.skip) := by
  intro isUnread cached
  cases isUnread <;> rfl

/-- C8: on every scan after the initial one, an unread/notified item is
classified unconditionally regardless of any cached value; the
classification branch deletes the old cache entry and stores the fresh
category (so the final cached value is the fresh one even when it equals
the old one); a read item with a truthy cache entry is labeled from the
cache without invoking the classifier. -/
theorem processDecision_subsequent_scan :
    (∀ cached, processDecision false true cached = ItemAction.classifyItem) ∧
    (∀ (cache : Cache) (messageId fresh : String),
      classifyBranchCache cache messageId fresh messageId = some fresh) ∧
    (∀ category, category ≠ "" →
      processDecision false false (some category) = ItemAction.useCached category) := by
  refine ⟨fun cached => rfl, ?_, ?_⟩
  · intro cache messageId fresh
    simp [classifyBranchCache]
  · intro category h
    simp [processDecision, jsTruthy, h]

/-- C8 witness: a read item cached as "Sales" on a subsequent scan is
labeled "Sales" from the cache. -/
theorem processDecision_subsequent_scan_witness :
    processDecision false false (some "Sales") = ItemAction.useCached "Sales" :=
  processDecision_subsequent_scan.2.2 "Sales" (by decide)

/-- C9: after `set(id, c)` every later `get(id)` returns `c`; a storage
operation that does not touch `id` (a set or delete of another key) leaves
the value read for `id` unchanged, and the stored value survives any
sequence of such operations — i.e. until the next `set(id, _)`,
`delete(id)` or epoch clear. -/
theorem cache_coherence :
    (∀ (cache : Cache) (id c : String), updateCacheEntry cache id c id = some c) ∧
    (∀ (cache : Cache) (op : StoreOp) (id : String),
      opTouches id op = false → applyStoreOp cache op id = cache id) ∧
    (∀ (cache : Cache) (id c : String) (ops : List StoreOp),
      noneTouch id ops = true →
        (ops.foldl applyStoreOp (updateCacheEntry cache id c)) id = some c) := by
  refine ⟨?_, ?_, ?_⟩
  · intro cache id c
    simp [updateCacheEntry]
  · intro cache op id h
    exact applyStoreOp_untouched cache op id h
  · intro cache id c ops h
    exact foldl_storeOps_preserve id c ops (updateCacheEntry cache id c)
      (by simp [updateCacheEntry]) h

/-- C9 witness: "a" ↦ "Sales" survives a set and a delete on the unrelated
key "b". -/
theorem cache_coherence_witness :
    (([StoreOp.setEntry "b" "Spam", StoreOp.removeEntry "b"]).foldl applyStoreOp
      (updateCacheEntry (fun _ => none) "a" "Sales")) "a" = some "Sales" :=
  cache_coherence.2.2 (fun _ => none) "a" "Sales"
    [StoreOp.setEntry "b" "Spam", StoreOp.removeEntry "b"] (by decide)

/-- C10: the fingerprint map `processedSnippets` never maps an itemId to
the empty string: every write site (change-detected dispatch,
retry-exhausted fallback, full scan, both content-observer paths, and the
read-removal deletion) preserves the invariant, so any sequence of
operations starting from the empty map satisfies it. -/
theorem snippet_fingerprints_never_empty :
    (∀ (m : SnippetMap) (op : SnippetOp),
      noEmptySnippet m → noEmptySnippet (applySnippetOp m op)) ∧
    (∀ ops : List SnippetOp, noEmptySnippet (ops.foldl applySnippetOp (fun _ => none))) := by
  have step : ∀ (m : SnippetMap) (op : SnippetOp),
      noEmptySnippet m → noEmptySnippet (applySnippetOp m op) := by
    intro m op h
    cases op with
    | pollChange convId cur =>
      simp only [applySnippetOp]
      split
      · rename_i hc
        exact setSnippet_preserves m convId cur
          (hasMeaningfulChange_ne_empty (m convId) cur hc) h
      · exact h
    | pollFallback convId cur =>
      simp only [applySnippetOp]
      split
      · rename_i hc
        exact setSnippet_preserves m convId cur hc h
      · exact h
    | scanStore convId text =>
      simp only [applySnippetOp]
      split
      · rename_i hc
        exact setSnippet_preserves m convId text hc h
      · exact h
    | observerDirect convId cur =>
      simp only [applySnippetOp]
      split
      · rename_i hc
        exact setSnippet_preserves m convId cur hc.2 h
      · exact h
    | observerAdded convId cur =>
      simp only [applySnippetOp]
      split
      · rename_i hc
        split
        · exact setSnippet_preserves m convId cur hc h
        · exact h
      · exact h
    | readRemoval convId =>
      simp only [applySnippetOp]
      split
      · intro id
        dsimp only
        split
        · exact fun he => Option.noConfusion he
        · exact h id
      · exact h
  refine ⟨step, ?_⟩
  have run : ∀ (ops : List SnippetOp) (m : SnippetMap),
      noEmptySnippet m → noEmptySnippet (ops.foldl applySnippetOp m) := by
    intro ops
    induction ops with
    | nil => intro m h; exact h
    | cons op ops ih =>
      intro m h
      exact ih (applySnippetOp m op) (step m op h)
  intro ops
  exact run ops (fun _ => none) (fun _ he => Option.noConfusion he)

/-- C10 witness: one scan write of "hi" into the empty fingerprint map
keeps the invariant. -/
theorem snippet_fingerprints_never_empty_witness :
    noEmptySnippet (applySnippetOp (fun _ => none) (SnippetOp.scanStore "conv" "hi")) :=
  snippet_fingerprints_never_empty.1 (fun _ => none) (SnippetOp.scanStore "conv" "hi")
    (fun _ he => Option.noConfusion he)

end InboxZen

